import Mathlib

/-!
Verification of the command-gatekeeping and execution-state core of AgentCLI.

The definitions below are a shallow embedding of `src/lib/bash_tool.py`
(class `Bash`: `exec_bash_command`, `is_auto_executable`, `_extract_commands`,
`_run_bash_command`, and the two module-level command lists).  The variant in
`src/bash_tool.py` has the same gated logic; only its error/placeholder message
punctuation differs, and it lacks `is_auto_executable`.

Python string primitives (`str.strip()`, `str.split()`, `str.split(sep)`,
`re.split`, `re.sub`) are modelled explicitly on `List Char` so that every
definition is executable by kernel reduction.
-/

/-- ASCII whitespace as recognised by Python's `str.strip()` / `str.split()` /
regex `\s` for the ASCII range: space, tab, newline, carriage return,
vertical tab (11) and form feed (12). -/
def isSpace (c : Char) : Bool :=
  decide (c = ' ' ∨ c = '\t' ∨ c = '\n' ∨ c = '\r' ∨ c = Char.ofNat 11 ∨ c = Char.ofNat 12)

/-- Python `str.strip()` on a character list: drop whitespace from both ends. -/
def stripChars (cs : List Char) : List Char :=
  ((cs.dropWhile isSpace).reverse.dropWhile isSpace).reverse

/-- Python `str.strip()`. -/
def pyStrip (s : String) : String :=
  String.mk (stripChars s.toList)

/-- Worker for Python `str.split(sep)` with a non-empty separator: scan left to
right, splitting at each leftmost non-overlapping occurrence of `sep`, keeping
empty fragments.  `fuel` bounds the recursion; `fuel = cs.length` always
suffices because every step consumes at least one character. -/
def pySplitOnAux (sep : List Char) : Nat → List Char → List Char → List (List Char)
  | _, [], acc => [acc.reverse]
  | 0, cs, acc => [acc.reverse ++ cs]
  | fuel + 1, c :: rest, acc =>
    if sep.isPrefixOf (c :: rest) then
      acc.reverse :: pySplitOnAux sep fuel ((c :: rest).drop sep.length) []
    else
      pySplitOnAux sep fuel rest (c :: acc)

/-- Python `s.split(sep)` for a non-empty `sep` (the code only uses
`result.stdout.split("__END__")`). -/
def pySplitOnStr (s sep : String) : List String :=
  (pySplitOnAux sep.toList s.toList.length s.toList []).map String.mk

/-- Worker for Python's no-argument `str.split()`: split on runs of whitespace,
discarding empty fragments. -/
def wordsAux : List Char → List Char → List (List Char)
  | [], cur => if cur.isEmpty then [] else [cur.reverse]
  | c :: rest, cur =>
    if isSpace c then
      if cur.isEmpty then wordsAux rest [] else cur.reverse :: wordsAux rest []
    else
      wordsAux rest (c :: cur)

/-- Python `str.split()` (no argument). -/
def pySplitWords (cs : List Char) : List (List Char) :=
  wordsAux cs []

/-- `re.split(r'[|;&]|\$\(|` backtick `|\|\||&&', cmd)`: Python's `re.split`
scans left to right trying the alternatives in order at each position, so the
character class `[|;&]` always fires before the two-character alternatives
`\|\|` and `&&` can; the effective separators are the single characters
`|`, `;`, `&`, backtick (code 96) and the two-character opener `$(`.
Empty fragments are kept, exactly as `re.split` keeps them. -/
def splitSepsAux : List Char → List Char → List (List Char)
  | [], acc => [acc.reverse]
  | '$' :: '(' :: rest, acc => acc.reverse :: splitSepsAux rest []
  | c :: rest, acc =>
    if c = '|' ∨ c = ';' ∨ c = '&' ∨ c = Char.ofNat 96 then
      acc.reverse :: splitSepsAux rest []
    else
      splitSepsAux rest (c :: acc)

/-- Length of the leftmost match of the regex `>+\s*\S+` anchored at the head
of `cs`, or `none`.  Backtracking semantics of the Python engine:
`>+` is greedy (take the whole run of `g` characters `>`), then `\s*` greedy,
then `\S+` needs at least one non-whitespace character.  If nothing
non-whitespace follows the whitespace run, the engine backtracks `>+` to
`g - 1` characters, letting `\S+` consume the final `>` — possible exactly
when `g ≥ 2`, and the match then covers just the `>`-run. -/
def redirMatchLen (cs : List Char) : Option Nat :=
  let g := (cs.takeWhile (fun c => decide (c = '>'))).length
  if g = 0 then none
  else
    let afterG := cs.drop g
    let w := (afterG.takeWhile isSpace).length
    let afterW := afterG.drop w
    if afterW.isEmpty then
      if 2 ≤ g then some g else none
    else
      some (g + w + (afterW.takeWhile (fun c => !(isSpace c))).length)

/-- Worker for `re.sub(r'>+\s*\S+', '', part)`: scan left to right, deleting
each leftmost non-overlapping match and resuming after it.  `fuel` bounds the
recursion; `fuel = cs.length` always suffices because every step consumes at
least one character (a match has length at least one). -/
def subRedirAux : Nat → List Char → List Char
  | 0, cs => cs
  | _ + 1, [] => []
  | fuel + 1, c :: rest =>
    if c = '>' then
      match redirMatchLen (c :: rest) with
      | some k => subRedirAux fuel ((c :: rest).drop k)
      | none => c :: subRedirAux fuel rest
    else
      c :: subRedirAux fuel rest

/-- `re.sub(r'>+\s*\S+', '', part)`. -/
def subRedir (cs : List Char) : List Char :=
  subRedirAux cs.length cs

/-- The per-fragment loop body of `Bash._extract_commands`: strip the
fragment; if non-empty, delete redirections and strip again; if still
non-empty, take the first whitespace-delimited token as the command name and
append it when non-empty. -/
def extractFromParts : List (List Char) → List String
  | [] => []
  | p :: rest =>
    let part := stripChars p
    if part.isEmpty then extractFromParts rest
    else
      let part2 := stripChars (subRedir part)
      if part2.isEmpty then extractFromParts rest
      else
        match pySplitWords part2 with
        | [] => extractFromParts rest
        | w :: _ => if w.isEmpty then extractFromParts rest else String.mk w :: extractFromParts rest

/-- `Bash._extract_commands`: split the raw command line on the separator
regex, then extract the leading command name of each fragment. -/
def extractCommands (cmd : String) : List String :=
  extractFromParts (splitSepsAux cmd.toList [])

/-- Module-level `LIST_OF_ALLOWED_COMMANDS` from `src/lib/bash_tool.py`. -/
def LIST_OF_ALLOWED_COMMANDS : List String :=
  ["ls", "cd", "pwd", "find", "tree",
   "cat", "head", "tail", "less", "more", "wc",
   "grep", "awk", "sed", "sort", "uniq", "cut", "tr",
   "touch", "mkdir", "cp", "echo",
   "df", "du", "free", "uname", "whoami", "date", "hostname",
   "ps", "top", "htop",
   "ping", "curl", "wget", "ifconfig", "ip",
   "tar", "zip", "unzip", "gzip", "gunzip",
   "which", "whereis", "file", "stat", "basename", "dirname"]

/-- Module-level `LIST_OF_AUTO_EXECUTE_COMMANDS` from `src/lib/bash_tool.py`
(the duplicates `ls` and `cd` appear exactly as in the source). -/
def LIST_OF_AUTO_EXECUTE_COMMANDS : List String :=
  ["ls", "pwd", "whoami", "date", "hostname", "uname",
   "df", "free", "ps",
   "which", "whereis", "file", "stat", "basename", "dirname",
   "echo", "cat", "head", "tail", "wc",
   "tree", "find",
   "ls", "cd",
   "wget"]

/-- The mutable state of a `Bash` instance: `self.cwd`,
`self._allowed_commands`, `self._auto_execute_commands`.  Only `cwd` is ever
reassigned by the methods. -/
structure BashState where
  cwd : String
  allowedCommands : List String
  autoExecuteCommands : List String
deriving DecidableEq, Repr

/-- What the spawned shell does on one `subprocess.run` call: either it
completes with captured stdout and stderr texts, or the spawn/communication
raises an exception carrying a message (`str(e)`). -/
inductive ShellOutcome where
  | ok (stdout stderr : String)
  | exn (msg : String)
deriving DecidableEq, Repr

/-- The dictionary returned by `Bash._run_bash_command`:
`{"stdout": ..., "stderr": ..., "cwd": ...}`. -/
structure RunResult where
  stdout : String
  stderr : String
  cwd : String
deriving DecidableEq, Repr

/-- The dictionary returned by `Bash.exec_bash_command`: either an
`{"error": ...}` record or the run-result record. -/
inductive ExecResult where
  | error (msg : String)
  | output (r : RunResult)
deriving DecidableEq, Repr

/-- `wrapped = f"{cmd};echo __END__;pwd"`. -/
def wrapCommand (cmd : String) : String :=
  cmd ++ ";echo __END__;pwd"

/-- The fixed placeholder installed when a successful command produces no
output (`src/lib/bash_tool.py` spelling, without a trailing period). -/
def successPlaceholder : String :=
  "Command executed successfully, without any output"

/-- `Bash._run_bash_command`, with the shell's behaviour supplied as a
`ShellOutcome` oracle.  Returns the result dictionary, the value of
`self.cwd` after the call, and the shell invocations attempted, each recorded
as (command text handed to the shell, working directory it was rooted at).
On the normal path: `stderr := result.stderr`;
`split := result.stdout.split("__END__")`; `stdout := split[0].strip()`;
the placeholder replaces `stdout` when both it and the raw `stderr` are
empty; `new_cwd := split[-1].strip()` and `self.cwd := new_cwd`.
On an exception: `stdout := ""`, `stderr := str(e)`, and `self.cwd` (and the
returned `cwd`, initialised to it) are untouched. -/
def runBashCommand (cwd cmd : String) (world : ShellOutcome) :
    RunResult × String × List (String × String) :=
  match world with
  | ShellOutcome.ok out err =>
    let split := pySplitOnStr out "__END__"
    let stdout0 := pyStrip (split.headD "")
    let stdout := if stdout0 = "" ∧ err = "" then successPlaceholder else stdout0
    let newCwd := pyStrip (split.getLastD "")
    (⟨stdout, err, newCwd⟩, newCwd, [(wrapCommand cmd, cwd)])
  | ShellOutcome.exn msg =>
    (⟨"", msg, cwd⟩, cwd, [(wrapCommand cmd, cwd)])

/-- `Bash.exec_bash_command`: reject the empty string with the
`"No command was provided"` error; reject when some extracted command name is
not in the allowlist; otherwise run the raw command.  Returns the result
dictionary, the state after the call, and the shell invocations attempted
(empty on both rejection paths: no shell is touched there). -/
def execBashCommand (st : BashState) (cmd : String) (world : ShellOutcome) :
    ExecResult × BashState × List (String × String) :=
  if cmd = "" then
    (ExecResult.error "No command was provided", st, [])
  else if ∀ c ∈ extractCommands cmd, c ∈ st.allowedCommands then
    let res := runBashCommand st.cwd cmd world
    (ExecResult.output res.1, ⟨res.2.1, st.allowedCommands, st.autoExecuteCommands⟩, res.2.2)
  else
    (ExecResult.error "Parts of this command were not in the allowlist", st, [])

/-- `Bash.is_auto_executable`: `all(c in self._auto_execute_commands for c in
self._extract_commands(cmd))`.  A pure function of the state and the command
string; it returns only a `Bool` and touches no state. -/
def isAutoExecutable (st : BashState) (cmd : String) : Bool :=
  (extractCommands cmd).all (fun c => decide (c ∈ st.autoExecuteCommands))

/-- A concrete session state used for witnesses and counterexamples: the
default configuration a `Bash("/home/user", LIST_OF_ALLOWED_COMMANDS,
LIST_OF_AUTO_EXECUTE_COMMANDS)` instance starts with. -/
def sampleState : BashState :=
  ⟨"/home/user", LIST_OF_ALLOWED_COMMANDS, LIST_OF_AUTO_EXECUTE_COMMANDS⟩

/-! ## Basic facts shared by several claim proofs -/

theorem extractCommands_nil : extractCommands "" = [] := rfl

theorem execBashCommand_empty (st : BashState) (world : ShellOutcome) :
    execBashCommand st "" world = (ExecResult.error "No command was provided", st, []) := by
  unfold execBashCommand
  rw [if_pos rfl]

theorem execBashCommand_rejected (st : BashState) (cmd : String) (world : ShellOutcome)
    (hne : cmd ≠ "") (hnall : ¬ ∀ c ∈ extractCommands cmd, c ∈ st.allowedCommands) :
    execBashCommand st cmd world =
      (ExecResult.error "Parts of this command were not in the allowlist", st, []) := by
  unfold execBashCommand
  rw [if_neg hne, if_neg hnall]

theorem execBashCommand_run (st : BashState) (cmd : String) (world : ShellOutcome)
    (hne : cmd ≠ "") (hall : ∀ c ∈ extractCommands cmd, c ∈ st.allowedCommands) :
    execBashCommand st cmd world =
      (ExecResult.output (runBashCommand st.cwd cmd world).1,
       ⟨(runBashCommand st.cwd cmd world).2.1, st.allowedCommands, st.autoExecuteCommands⟩,
       (runBashCommand st.cwd cmd world).2.2) := by
  unfold execBashCommand
  rw [if_neg hne, if_pos hall]

/-! ## Claims -/

/-- C1: if any name extracted from the raw command is not in the session's
allowed-commands list, `exec_bash_command` returns the error-shaped result,
no shell invocation is attempted, and the session state (in particular its
working directory) is unchanged; the rejection is idempotent — a second call
on the resulting state returns exactly the same result and state. -/
theorem C1_disallowed_command_rejected (st : BashState) (cmd : String) (world : ShellOutcome)
    (h : ∃ c ∈ extractCommands cmd, c ∉ st.allowedCommands) :
    execBashCommand st cmd world =
      (ExecResult.error "Parts of this command were not in the allowlist", st, []) ∧
    execBashCommand (execBashCommand st cmd world).2.1 cmd world =
      execBashCommand st cmd world := by
  obtain ⟨c, hc, hnc⟩ := h
  have hne : cmd ≠ "" := by
    intro h0
    rw [h0, extractCommands_nil] at hc
    exact absurd hc (List.not_mem_nil c)
  have hnall : ¬ ∀ x ∈ extractCommands cmd, x ∈ st.allowedCommands :=
    fun hall => hnc (hall c hc)
  have h1 := execBashCommand_rejected st cmd world hne hnall
  exact ⟨h1, by rw [h1]; exact h1⟩

/-- C1 witness: the default session rejects `rm -rf /` (the name `rm` is not
allowlisted) without touching the shell or the state, idempotently. -/
theorem C1_witness :
    (∃ c ∈ extractCommands "rm -rf /", c ∉ sampleState.allowedCommands) ∧
    (execBashCommand sampleState "rm -rf /" (ShellOutcome.ok "" "") =
      (ExecResult.error "Parts of this command were not in the allowlist", sampleState, []) ∧
     execBashCommand (execBashCommand sampleState "rm -rf /" (ShellOutcome.ok "" "")).2.1
        "rm -rf /" (ShellOutcome.ok "" "") =
       execBashCommand sampleState "rm -rf /" (ShellOutcome.ok "" "")) :=
  ⟨by decide,
   C1_disallowed_command_rejected sampleState "rm -rf /" (ShellOutcome.ok "" "") (by decide)⟩

/-- C2 counterexample: the input `"   "` consists only of whitespace and is
not empty, yet `exec_bash_command` does NOT return the EmptyCommand error —
the guard is `if not cmd`, which only catches the empty string; the
whitespace-only line passes the (vacuous) allowlist loop and a shell is
invoked on it. -/
theorem C2_counterexample :
    ("   " : String) ≠ "" ∧
    (∀ c ∈ ("   " : String).toList, isSpace c) ∧
    (execBashCommand sampleState "   " (ShellOutcome.ok "__END__\n/home/user\n" "")).2.2 =
      [("   ;echo __END__;pwd", "/home/user")] ∧
    (execBashCommand sampleState "   " (ShellOutcome.ok "__END__\n/home/user\n" "")).1 ≠
      ExecResult.error "No command was provided" := by
  decide

/-- C2 amended: only for the *empty* input string does `exec_bash_command`
return the EmptyCommand error result (`"No command was provided"`) with no
shell invocation and the session state unchanged; a whitespace-only non-empty
input is instead handed to the shell. -/
theorem C2_amended_empty_rejected (st : BashState) (world : ShellOutcome) :
    execBashCommand st "" world = (ExecResult.error "No command was provided", st, []) :=
  execBashCommand_empty st world

/-- C3 counterexample: `ls` is allowlisted; an exception-free shell run whose
captured stdout is empty (the sentinel never appears — e.g. the shell exited
before the appended `pwd` ran) makes `_run_bash_command` assign
`split[-1].strip() = ""` to the session's working directory, so the session,
started at `/home/user`, ends with the empty working directory — refuting
"it is never assigned an empty or partial value". -/
theorem C3_counterexample :
    sampleState.cwd = "/home/user" ∧
    (execBashCommand sampleState "ls" (ShellOutcome.ok "" "")).2.1.cwd = "" := by
  decide

/-- C3 amended: after a rejected call or a call whose shell interaction raises
an exception, the session state is unchanged; after an exception-free shell
run the working directory is assigned the stripped text following the last
sentinel occurrence of the captured stdout — when the sentinel is absent this
is the stripped whole captured stdout, which may be empty or partial. -/
theorem C3_amended_cwd_update (st : BashState) (cmd : String) :
    (∀ msg, (execBashCommand st cmd (ShellOutcome.exn msg)).2.1 = st) ∧
    (∀ world, (cmd = "" ∨ ¬ ∀ c ∈ extractCommands cmd, c ∈ st.allowedCommands) →
      (execBashCommand st cmd world).2.1 = st) ∧
    (∀ out err, cmd ≠ "" → (∀ c ∈ extractCommands cmd, c ∈ st.allowedCommands) →
      (execBashCommand st cmd (ShellOutcome.ok out err)).2.1.cwd =
        pyStrip ((pySplitOnStr out "__END__").getLastD "")) := by
  refine ⟨?_, ?_, ?_⟩
  · intro msg
    by_cases h0 : cmd = ""
    · rw [h0, execBashCommand_empty]
    · by_cases h1 : ∀ c ∈ extractCommands cmd, c ∈ st.allowedCommands
      · rw [execBashCommand_run st cmd _ h0 h1]
        rfl
      · rw [execBashCommand_rejected st cmd _ h0 h1]
  · intro world h
    rcases h with h0 | h1
    · rw [h0, execBashCommand_empty]
    · by_cases h0 : cmd = ""
      · rw [h0, execBashCommand_empty]
      · rw [execBashCommand_rejected st cmd world h0 h1]
  · intro out err h0 h1
    rw [execBashCommand_run st cmd _ h0 h1]
    rfl

/-- C3 witness: the amended statement instantiated — an exception leaves the
default session untouched; a disallowed command leaves it untouched; an
allowed command with captured stdout `"a__END__ /tmp\n"` sets the working
directory to the stripped text after the sentinel. -/
theorem C3_witness :
    (execBashCommand sampleState "ls" (ShellOutcome.exn "boom")).2.1 = sampleState ∧
    (execBashCommand sampleState "rm x" (ShellOutcome.ok "a__END__/tmp" "")).2.1 = sampleState ∧
    (execBashCommand sampleState "ls" (ShellOutcome.ok "a__END__ /tmp\n" "")).2.1.cwd =
      pyStrip ((pySplitOnStr "a__END__ /tmp\n" "__END__").getLastD "") :=
  ⟨(C3_amended_cwd_update sampleState "ls").1 "boom",
   (C3_amended_cwd_update sampleState "rm x").2.1 (ShellOutcome.ok "a__END__/tmp" "")
     (Or.inr (by decide)),
   (C3_amended_cwd_update sampleState "ls").2.2 "a__END__ /tmp\n" "" (by decide) (by decide)⟩

/-- C4 counterexample: with captured stdout `"  hi__END__/tmp"` and non-empty
stderr, the returned stdout field is `"hi"`: `split[0].strip()` removes the
*leading* whitespace as well, whereas the claim's "everything before the
sentinel trimmed of trailing whitespace" would be `"  hi"`. -/
theorem C4_counterexample :
    (execBashCommand sampleState "ls" (ShellOutcome.ok "  hi__END__/tmp" "x")).1 =
      ExecResult.output ⟨"hi", "x", "/tmp"⟩ ∧
    ("hi" : String) ≠ "  hi" := by
  decide

/-- C4 amended: for every command that reaches the shell, the executor runs
the wrapped text `<cmd>;echo __END__;pwd` in a shell rooted at the session's
current working directory; the stdout field of the result is everything
before the FIRST sentinel occurrence stripped of leading and trailing
whitespace (with the success placeholder substituted when both it and the
captured stderr are empty), and the new working directory is everything after
the LAST sentinel occurrence, stripped likewise. -/
theorem C4_amended_sentinel_protocol (st : BashState) (cmd out err : String)
    (hne : cmd ≠ "") (hall : ∀ c ∈ extractCommands cmd, c ∈ st.allowedCommands) :
    (execBashCommand st cmd (ShellOutcome.ok out err)).2.2 =
      [(cmd ++ ";echo __END__;pwd", st.cwd)] ∧
    (execBashCommand st cmd (ShellOutcome.ok out err)).1 =
      ExecResult.output
        ⟨if pyStrip ((pySplitOnStr out "__END__").headD "") = "" ∧ err = ""
            then successPlaceholder
            else pyStrip ((pySplitOnStr out "__END__").headD ""),
         err,
         pyStrip ((pySplitOnStr out "__END__").getLastD "")⟩ := by
  rw [execBashCommand_run st cmd _ hne hall]
  exact ⟨rfl, rfl⟩

/-- C4 witness: the amended protocol instantiated at a run of `ls` whose
captured stdout is `"a__END__b"` with stderr `"e"`. -/
theorem C4_witness :
    (execBashCommand sampleState "ls" (ShellOutcome.ok "a__END__b" "e")).2.2 =
      [("ls;echo __END__;pwd", sampleState.cwd)] ∧
    (execBashCommand sampleState "ls" (ShellOutcome.ok "a__END__b" "e")).1 =
      ExecResult.output
        ⟨if pyStrip ((pySplitOnStr "a__END__b" "__END__").headD "") = "" ∧ ("e" : String) = ""
            then successPlaceholder
            else pyStrip ((pySplitOnStr "a__END__b" "__END__").headD ""),
         "e",
         pyStrip ((pySplitOnStr "a__END__b" "__END__").getLastD "")⟩ :=
  C4_amended_sentinel_protocol sampleState "ls" "a__END__b" "e" (by decide) (by decide)

/-- C5: for every exception raised while spawning or communicating with the
shell on a call that reaches the execution step, `exec_bash_command` catches
it and returns the structured result with empty stdout, the exception's text
as stderr, and the session's unchanged working directory; the session state
is not modified (and, the embedding being a total function, nothing
propagates to the caller). -/
theorem C5_exception_caught (st : BashState) (cmd msg : String)
    (hne : cmd ≠ "") (hall : ∀ c ∈ extractCommands cmd, c ∈ st.allowedCommands) :
    execBashCommand st cmd (ShellOutcome.exn msg) =
      (ExecResult.output ⟨"", msg, st.cwd⟩, st, [(cmd ++ ";echo __END__;pwd", st.cwd)]) := by
  rw [execBashCommand_run st cmd _ hne hall]
  rfl

/-- C5 witness: a simulated spawn failure on `ls` in the default session. -/
theorem C5_witness :
    execBashCommand sampleState "ls" (ShellOutcome.exn "spawn failed") =
      (ExecResult.output ⟨"", "spawn failed", "/home/user"⟩, sampleState,
       [("ls;echo __END__;pwd", "/home/user")]) :=
  C5_exception_caught sampleState "ls" "spawn failed" (by decide) (by decide)

/-- C6 counterexample: with captured stdout `""` and captured stderr `" "`
(both empty after trimming), the returned stdout is the empty string, not the
placeholder: the code tests the RAW stderr (`if not stdout and not stderr`),
and `" "` is truthy, so the placeholder is skipped. -/
theorem C6_counterexample :
    pyStrip "" = "" ∧
    pyStrip " " = "" ∧
    (execBashCommand sampleState "ls" (ShellOutcome.ok "" " ")).1 =
      ExecResult.output ⟨"", " ", ""⟩ ∧
    ("" : String) ≠ successPlaceholder := by
  decide

/-- C6 amended: on an exception-free run, the placeholder is substituted
exactly when the stripped before-sentinel stdout is empty AND the raw
captured stderr is the empty string (stderr is not trimmed before the test);
under that condition the result carries the non-empty placeholder, and no
exception-free run ever returns a result whose stdout and stderr are both
empty strings. -/
theorem C6_amended_placeholder (st : BashState) (cmd out err : String)
    (hne : cmd ≠ "") (hall : ∀ c ∈ extractCommands cmd, c ∈ st.allowedCommands) :
    (pyStrip ((pySplitOnStr out "__END__").headD "") = "" → err = "" →
      (execBashCommand st cmd (ShellOutcome.ok out err)).1 =
        ExecResult.output
          ⟨successPlaceholder, "", pyStrip ((pySplitOnStr out "__END__").getLastD "")⟩) ∧
    (∀ r, (execBashCommand st cmd (ShellOutcome.ok out err)).1 = ExecResult.output r →
      ¬ (r.stdout = "" ∧ r.stderr = "")) := by
  constructor
  · intro h1 h2
    rw [execBashCommand_run st cmd _ hne hall]
    show ExecResult.output
        ⟨if pyStrip ((pySplitOnStr out "__END__").headD "") = "" ∧ err = ""
            then successPlaceholder
            else pyStrip ((pySplitOnStr out "__END__").headD ""),
         err, pyStrip ((pySplitOnStr out "__END__").getLastD "")⟩ =
      ExecResult.output
        ⟨successPlaceholder, "", pyStrip ((pySplitOnStr out "__END__").getLastD "")⟩
    rw [if_pos ⟨h1, h2⟩, h2]
  · intro r hr
    rw [execBashCommand_run st cmd _ hne hall] at hr
    have hr' : (runBashCommand st.cwd cmd (ShellOutcome.ok out err)).1 = r := by
      injection hr
    subst hr'
    rintro ⟨hs, he⟩
    simp only [runBashCommand] at hs he
    by_cases hc : pyStrip ((pySplitOnStr out "__END__").headD "") = ""
    · rw [if_pos ⟨hc, he⟩] at hs
      exact absurd hs (by decide)
    · rw [if_neg (fun hand => hc hand.1)] at hs
      exact hc hs

/-- C6 witness: the amended statement instantiated — a silent successful
`ls` (captured stdout `"__END__/d"`, stderr `""`) yields the placeholder. -/
theorem C6_witness :
    (execBashCommand sampleState "ls" (ShellOutcome.ok "__END__/d" "")).1 =
      ExecResult.output
        ⟨successPlaceholder, "", pyStrip ((pySplitOnStr "__END__/d" "__END__").getLastD "")⟩ :=
  (C6_amended_placeholder sampleState "ls" "__END__/d" "" (by decide) (by decide)).1
    (by decide) rfl

/-- C7: `is_auto_executable` returns true iff every extracted name is in the
session's auto-execute list; an empty extracted sequence gives true
vacuously; the value does not depend on the allowed-commands list (and the
function is pure — it returns only a boolean and no state). -/
theorem C7_auto_executable_contract (st : BashState) (cmd : String) :
    (isAutoExecutable st cmd = true ↔
      ∀ c ∈ extractCommands cmd, c ∈ st.autoExecuteCommands) ∧
    (extractCommands cmd = [] → isAutoExecutable st cmd = true) ∧
    (∀ al₁ al₂ : List String,
      isAutoExecutable ⟨st.cwd, al₁, st.autoExecuteCommands⟩ cmd =
      isAutoExecutable ⟨st.cwd, al₂, st.autoExecuteCommands⟩ cmd) := by
  refine ⟨?_, ?_, fun al₁ al₂ => rfl⟩
  · simp [isAutoExecutable, List.all_eq_true]
  · intro h
    simp [isAutoExecutable, h]

/-- C7 witness: the empty extracted sequence (empty input) is vacuously
auto-executable in the default session. -/
theorem C7_witness : isAutoExecutable sampleState "" = true :=
  (C7_auto_executable_contract sampleState "").2.1 (by decide)

/-- C8: the extractor reproduces the four reference examples of the spec,
order and duplicates preserved, redirection targets excluded, and empty or
whitespace-only input giving the empty sequence. -/
theorem C8_extractor_examples :
    extractCommands "ls -la | grep foo && echo done; rm -rf /" = ["ls", "grep", "echo", "rm"] ∧
    extractCommands "echo hi > out.txt" = ["echo"] ∧
    extractCommands "" = [] ∧
    extractCommands "   " = [] := by
  decide

/-- C9: a non-empty input whose extracted name sequence is empty passes the
allowlist loop vacuously and is handed to the shell for execution rather than
rejected: the call reduces to the run path and exactly one shell invocation
(of the wrapped text, rooted at the session's working directory) occurs. -/
theorem C9_vacuous_allowlist_pass (st : BashState) (cmd : String) (world : ShellOutcome)
    (hne : cmd ≠ "") (hempty : extractCommands cmd = []) :
    execBashCommand st cmd world =
      (ExecResult.output (runBashCommand st.cwd cmd world).1,
       ⟨(runBashCommand st.cwd cmd world).2.1, st.allowedCommands, st.autoExecuteCommands⟩,
       (runBashCommand st.cwd cmd world).2.2) ∧
    (execBashCommand st cmd world).2.2 = [(wrapCommand cmd, st.cwd)] := by
  have hall : ∀ c ∈ extractCommands cmd, c ∈ st.allowedCommands := by
    rw [hempty]
    intro c hc
    exact absurd hc (List.not_mem_nil c)
  have h1 := execBashCommand_run st cmd world hne hall
  refine ⟨h1, ?_⟩
  rw [h1]
  cases world <;> rfl

/-- C9 witness: the pure-redirection line `> file.txt` extracts to the empty
sequence and is executed by the default session, one shell invocation. -/
theorem C9_witness :
    execBashCommand sampleState "> file.txt" (ShellOutcome.ok "__END__/tmp" "") =
      (ExecResult.output
         (runBashCommand sampleState.cwd "> file.txt" (ShellOutcome.ok "__END__/tmp" "")).1,
       ⟨(runBashCommand sampleState.cwd "> file.txt" (ShellOutcome.ok "__END__/tmp" "")).2.1,
        sampleState.allowedCommands, sampleState.autoExecuteCommands⟩,
       (runBashCommand sampleState.cwd "> file.txt" (ShellOutcome.ok "__END__/tmp" "")).2.2) ∧
    (execBashCommand sampleState "> file.txt" (ShellOutcome.ok "__END__/tmp" "")).2.2 =
      [(wrapCommand "> file.txt", sampleState.cwd)] :=
  C9_vacuous_allowlist_pass sampleState "> file.txt" (ShellOutcome.ok "__END__/tmp" "")
    (by decide) (by decide)

/-- C10: on both the normal path and the caught-exception path of
`_run_bash_command`, the `cwd` field of the returned dictionary equals the
session's working directory as it stands after the call — the reported
directory and the stored state never disagree. -/
theorem C10_result_state_agreement (cwd cmd : String) (world : ShellOutcome) :
    (runBashCommand cwd cmd world).1.cwd = (runBashCommand cwd cmd world).2.1 := by
  cases world <;> rfl
